import Mathlib

/-!
Verification of the retry / expiring-cache utilities of the `adk_travel_agent`
package (`src/adk_travel_agent/utils.py`) and of the tool `execute` control
flow that uses them (`flight_tool.py`, `travel_info_tool.py`, `hotel_tool.py`).

The Python code is shallowly embedded: the callable wrapped by the `retry`
decorator is modelled as a function from the invocation index to an outcome
(a returned value or a raised exception), the `except exceptions` clause as a
boolean predicate on exceptions, dictionaries as functions to `Option`, and
`time.time()` as an explicit rational-number argument threaded through the
calls.
-/

/-- Outcome of one invocation of a Python callable: it either returns a value
or raises an exception. -/
inductive Outcome (α ε : Type) where
  | ok (v : α)
  | err (e : ε)
deriving DecidableEq, Repr

/-- Result of calling the function produced by the `retry` decorator:
`returned (some v)` models a `return` of `v` from the wrapped call,
`returned none` models the implicit `return None` reached when the
`while tries < max_tries` loop body never runs, and `raised e` models an
exception propagating out of the wrapper. -/
inductive RetryResult (α ε : Type) where
  | returned (v : Option α)
  | raised (e : ε)
deriving DecidableEq, Repr

/-- Full observable behaviour of one call of the wrapper produced by
`retry`: its result, how many times the wrapped callable was invoked, and
the list of `time.sleep` durations in order of occurrence. -/
structure RetryTrace (α ε : Type) where
  result : RetryResult α ε
  calls : Nat
  sleeps : List Int
deriving DecidableEq, Repr

/-- The `while tries < max_tries` loop of `retry.decorator.wrapper` in
`utils.py`, with the loop counter expressed by the change of variable
`remaining = max_tries - tries` (the loop guard `tries < max_tries` becomes
`remaining > 0`, and the exhaustion test `tries == max_tries` after the
increment `tries += 1` becomes `remaining - 1 == 0`).  `f k` is the outcome
of the `(k+1)`-th invocation of the wrapped callable, `retryable e` models
`isinstance(e, exceptions)` (the `except exceptions` clause), `delay` is
`current_delay`, `calls` and `sleeps` the invocation count and sleep log
accumulated so far. -/
def retryGo (f : Nat → Outcome α ε) (retryable : ε → Bool) (remaining : Nat)
    (delay : Int) (calls : Nat) (sleeps : List Int) : RetryTrace α ε :=
  match remaining with
  | 0 => ⟨.returned none, calls, sleeps⟩
  | r + 1 =>
    match f calls with
    | .ok v => ⟨.returned (some v), calls + 1, sleeps⟩
    | .err e =>
      if retryable e then
        if r = 0 then
          ⟨.raised e, calls + 1, sleeps⟩
        else
          retryGo f retryable r (delay * 2) (calls + 1) (sleeps ++ [delay])
      else
        ⟨.raised e, calls + 1, sleeps⟩

/-- One call of the function returned by `retry(max_tries, delay_seconds,
exceptions)(func)`: runs the loop with `tries = 0` (that is, `remaining =
max_tries - 0`; `max_tries` is a Python `int`, and a non-positive value gives
`remaining = 0`, so the loop body never runs), `current_delay =
delay_seconds`, nothing invoked and nothing slept yet. -/
def retryRun (f : Nat → Outcome α ε) (retryable : ε → Bool) (maxTries : Int)
    (delaySeconds : Int) : RetryTrace α ε :=
  retryGo f retryable maxTries.toNat delaySeconds 0 []

instance {ε α : Type} [DecidableEq ε] [DecidableEq α] :
    DecidableEq (Except ε α) := fun a b =>
  match a, b with
  | .ok v, .ok w =>
    if h : v = w then .isTrue (by rw [h]) else .isFalse (by simp [h])
  | .ok _, .error _ => .isFalse (by simp)
  | .error _, .ok _ => .isFalse (by simp)
  | .error e, .error g =>
    if h : e = g then .isTrue (by rw [h]) else .isFalse (by simp [h])

/-- Python errors observable in the embedded fragment.  `keyError` models the
`KeyError` that `del d[k]` raises on an absent key. -/
inductive PyError where
  | keyError
deriving DecidableEq, Repr

/-- The `ExpiringCache` class of `utils.py`.  The two dictionaries
`self.cache` and `self.expiry` are modelled as functions from keys to
`Option`; `time.time()` values and `expiry_seconds` are rationals. -/
structure ExpiringCache (α : Type) where
  cache : String → Option α
  expiry : String → Option ℚ
  expirySeconds : ℚ

/-- `ExpiringCache.__init__`: both dictionaries start empty. -/
def ExpiringCache.init (α : Type) (expirySeconds : ℚ) : ExpiringCache α :=
  ⟨fun _ => none, fun _ => none, expirySeconds⟩

/-- `ExpiringCache.get`, with `now` the value of `time.time()` at the call.
Returns the Python return value (`none` models Python `None`, i.e. a miss)
together with the state of the cache after the call, or `PyError.keyError`
when `del self.expiry[key]` is reached with `key` absent from `self.expiry`
(`del self.cache[key]` cannot fail there, since that branch requires
`key in self.cache`). -/
def ExpiringCache.get (s : ExpiringCache α) (now : ℚ) (key : String) :
    Except PyError (Option α × ExpiringCache α) :=
  if (s.cache key).isSome ∧ now < (s.expiry key).getD 0 then
    .ok (s.cache key, s)
  else if (s.cache key).isSome then
    match s.expiry key with
    | some _ =>
        .ok (none,
          { s with
            cache := fun q => if q = key then none else s.cache q,
            expiry := fun q => if q = key then none else s.expiry q })
    | none => .error .keyError
  else
    .ok (none, s)

/-- `ExpiringCache.set`, with `now` the value of `time.time()` at the call:
`self.cache[key] = value; self.expiry[key] = time.time() +
self.expiry_seconds`. -/
def ExpiringCache.set (s : ExpiringCache α) (now : ℚ) (key : String)
    (value : α) : ExpiringCache α :=
  { s with
    cache := fun q => if q = key then some value else s.cache q,
    expiry := fun q => if q = key then some (now + s.expirySeconds)
      else s.expiry q }

/-- `ExpiringCache.clear`: both dictionaries are emptied. -/
def ExpiringCache.clear (s : ExpiringCache α) : ExpiringCache α :=
  { s with cache := fun _ => none, expiry := fun _ => none }

/-- The implicit representation invariant of `ExpiringCache`: `self.cache`
and `self.expiry` always hold exactly the same keys. -/
def ExpiringCache.invariant (s : ExpiringCache α) : Prop :=
  ∀ q, (s.cache q).isSome = (s.expiry q).isSome

/-- The Python exception classes that can reach the `except` clauses of the
tool `execute` methods; all of them are subclasses of `Exception`. -/
inductive PyExc where
  | serviceUnavailable
  | validationError
  | otherExc
deriving DecidableEq, Repr

/-- `type(e).__name__` for the modelled exception classes. -/
def pyExcName : PyExc → String
  | .serviceUnavailable => "ServiceUnavailableError"
  | .validationError => "ValidationError"
  | .otherExc => "Exception"

/-- `utils.validate_required_fields`: returns, in order, the required field
names that are absent from `data` or mapped to a falsy (empty-string)
value. -/
def validate_required_fields (data : List (String × String))
    (required : List String) : List String :=
  required.filter fun field =>
    match data.lookup field with
    | some v => v == ""
    | none => true

/-- The keyword arguments of `FlightSearchTool.execute` that its validation
section inspects, already passed through `kwargs.get(..., "")` and
`sanitize_input` (both of which yield strings). -/
structure FlightParams where
  origin : String
  destination : String
  date : String
  returnDate : String
deriving DecidableEq, Repr

/-- The result of one tool `execute` call: either the `{"status": "success",
...}` payload carrying the generated data, or a `{"status": "error",
"error_type": ..., "message": ...}` payload. -/
inductive ToolResult (ρ : Type) where
  | success (flights : ρ)
  | errorPayload (errorType : String) (message : String)
deriving DecidableEq, Repr

/-- The inner `try` of `FlightSearchTool.execute` around
`self._generate_mock_flights`: a generated value becomes a success payload
and is returned; a `ServiceUnavailableError` is re-raised by its
`except ServiceUnavailableError` clause, and any other exception propagates
uncaught — either way the exception leaves the inner `try`. -/
def flightInnerTry (gen : Outcome ρ PyExc) : Except PyExc (ToolResult ρ) :=
  match gen with
  | .ok flights => .ok (.success flights)
  | .err e => .error e

/-- The body of `FlightSearchTool.execute` (the whole outer `try`), given the
outcome `gen` of `self._generate_mock_flights` for this call.  `dateOk`
models `utils.validate_date_format` (which strings `datetime.strptime`
accepts is irrelevant to the control flow verified here).  Returns the
result of the call paired with the number of times the mock generator was
invoked (`0` or `1`).  The final `match` is the outer `except Exception as
e` handler: it catches every exception, including a re-raised
`ServiceUnavailableError`, and turns it into an error payload — so the body
never lets an exception reach the `retry` wrapper. -/
def flightExecuteBody (dateOk : String → Bool) (p : FlightParams)
    (gen : Outcome ρ PyExc) : ToolResult ρ × Nat :=
  let missing := validate_required_fields
    [("origin", p.origin), ("destination", p.destination), ("date", p.date)]
    ["origin", "destination", "date"]
  if missing ≠ [] then
    (.errorPayload "ValidationError"
      ("Missing required fields: " ++ String.intercalate ", " missing), 0)
  else if ¬ dateOk p.date then
    (.errorPayload "ValidationError"
      "Invalid departure date format. Use YYYY-MM-DD.", 0)
  else if p.returnDate ≠ "" ∧ ¬ dateOk p.returnDate then
    (.errorPayload "ValidationError"
      "Invalid return date format. Use YYYY-MM-DD.", 0)
  else
    match flightInnerTry gen with
    | .ok r => (r, 1)
    | .error e => (.errorPayload (pyExcName e) "Failed to search flights", 1)

/-- The `except` clause of the `@retry(max_tries=3, delay_seconds=2,
exceptions=(ServiceUnavailableError,))` decorator on the tool `execute`
methods: only `ServiceUnavailableError` is retryable. -/
def flightRetryable : PyExc → Bool
  | .serviceUnavailable => true
  | _ => false

/-- The callable that the `retry` decorator wraps: invocation `k` runs the
`execute` body against the generator behaviour `gens k` scheduled for that
attempt.  Since the body handles every exception itself, each invocation
returns normally. -/
def flightExecuteCall (dateOk : String → Bool) (p : FlightParams)
    (gens : Nat → Outcome ρ PyExc) (k : Nat) :
    Outcome (ToolResult ρ × Nat) PyExc :=
  .ok (flightExecuteBody dateOk p (gens k))

/-- One call of the decorated `FlightSearchTool.execute`, i.e. of the
function `retry(max_tries=3, delay_seconds=2,
exceptions=(ServiceUnavailableError,))(execute)`. -/
def flightExecuteRun (dateOk : String → Bool) (p : FlightParams)
    (gens : Nat → Outcome ρ PyExc) : RetryTrace (ToolResult ρ × Nat) PyExc :=
  retryRun (flightExecuteCall dateOk p gens) flightRetryable 3 2

theorem retryGo_zero (f : Nat → Outcome α ε) (retryable : ε → Bool)
    (d : Int) (c : Nat) (s : List Int) :
    retryGo f retryable 0 d c s = ⟨.returned none, c, s⟩ := rfl

theorem retryGo_ok {f : Nat → Outcome α ε} {c : Nat} {v : α}
    (retryable : ε → Bool) (h : f c = .ok v) (r : Nat) (d : Int)
    (s : List Int) :
    retryGo f retryable (r + 1) d c s = ⟨.returned (some v), c + 1, s⟩ := by
  simp [retryGo, h]

theorem retryGo_err_last {f : Nat → Outcome α ε} {retryable : ε → Bool}
    {c : Nat} {e : ε} (h : f c = .err e) (hr : retryable e = true)
    (d : Int) (s : List Int) :
    retryGo f retryable 1 d c s = ⟨.raised e, c + 1, s⟩ := by
  simp [retryGo, h, hr]

theorem retryGo_err_step {f : Nat → Outcome α ε} {retryable : ε → Bool}
    {c : Nat} {e : ε} (h : f c = .err e) (hr : retryable e = true)
    {r : Nat} (hrz : r ≠ 0) (d : Int) (s : List Int) :
    retryGo f retryable (r + 1) d c s =
      retryGo f retryable r (d * 2) (c + 1) (s ++ [d]) := by
  simp [retryGo, h, hr, hrz]

theorem retryGo_err_noretry {f : Nat → Outcome α ε} {retryable : ε → Bool}
    {c : Nat} {e : ε} (h : f c = .err e) (hr : retryable e = false)
    (r : Nat) (d : Int) (s : List Int) :
    retryGo f retryable (r + 1) d c s = ⟨.raised e, c + 1, s⟩ := by
  simp [retryGo, h, hr]

theorem sleepsShift (d : Int) (m : Nat) (s : List Int) :
    (s ++ [d]) ++ (List.range m).map (fun k => d * 2 * 2 ^ k) =
      s ++ (List.range (m + 1)).map fun k => d * 2 ^ k := by
  rw [List.append_assoc, List.range_succ_eq_map, List.map_cons]
  refine congrArg (s ++ ·) ?_
  rw [List.singleton_append, List.map_map]
  refine congrArg₂ (· :: ·) (by ring) (List.map_congr_left ?_)
  intro k _
  simp only [Function.comp_apply]
  rw [pow_succ]
  ring

theorem retryGo_allFail (f : Nat → Outcome α ε) (retryable : ε → Bool)
    (g : Nat → ε) (hf : ∀ k, f k = .err (g k))
    (hr : ∀ k, retryable (g k) = true) :
    ∀ (m : Nat) (d : Int) (c : Nat) (s : List Int),
      retryGo f retryable (m + 1) d c s =
        ⟨.raised (g (c + m)), c + m + 1,
          s ++ (List.range m).map fun k => d * 2 ^ k⟩ := by
  intro m
  induction m with
  | zero =>
    intro d c s
    simpa using retryGo_err_last (hf c) (hr c) d s
  | succ m ih =>
    intro d c s
    rw [retryGo_err_step (hf c) (hr c) (Nat.succ_ne_zero m) d s,
      ih (d * 2) (c + 1) (s ++ [d]), sleepsShift,
      show c + 1 + m = c + (m + 1) from by omega]

/-- C3: a callable that raises a retryable error on every invocation is
invoked exactly `max_tries` times by the retry wrapper, and the wrapper then
raises the error produced by the last invocation. -/
theorem retry_always_fails_raises_last (α : Type) (g : Nat → ε)
    (retryable : ε → Bool) (N : Nat) (hN : 1 ≤ N) (d : Int)
    (hr : ∀ k, retryable (g k) = true) :
    (retryRun (α := α) (fun k => .err (g k)) retryable (N : Int) d).result =
        .raised (g (N - 1)) ∧
      (retryRun (α := α) (fun k => .err (g k)) retryable (N : Int) d).calls =
        N := by
  obtain ⟨m, rfl⟩ : ∃ m, N = m + 1 := ⟨N - 1, by omega⟩
  unfold retryRun
  rw [Int.toNat_natCast,
    retryGo_allFail (fun k => .err (g k)) retryable g (fun _ => rfl) hr m d 0 []]
  simp

theorem retry_always_fails_witness :
    (1 : Nat) ≤ 3 ∧
      ((retryRun (α := Unit) (fun k => .err k) (fun _ : Nat => true)
          ((3 : Nat) : Int) 2).result = .raised 2 ∧
        (retryRun (α := Unit) (fun k => .err k) (fun _ : Nat => true)
          ((3 : Nat) : Int) 2).calls = 3) :=
  ⟨by decide,
    retry_always_fails_raises_last Unit (fun k => k) (fun _ => true) 3
      (by decide) 2 (fun _ => rfl)⟩

/-- C6: for a callable that always raises a retryable error, the wrapper
performs exactly `max_tries - 1` sleeps, the `(k+1)`-th sleep (between the
`(k+1)`-th and `(k+2)`-th invocation) lasting `delay_seconds * 2 ^ k`; no
sleep follows the final failed invocation. -/
theorem retry_backoff_doubles_sleeps (α : Type) (g : Nat → ε)
    (retryable : ε → Bool) (N : Nat) (hN : 1 ≤ N) (d : Int)
    (hr : ∀ k, retryable (g k) = true) :
    (retryRun (α := α) (fun k => .err (g k)) retryable (N : Int) d).sleeps =
        (List.range (N - 1)).map (fun k => d * 2 ^ k) ∧
      (retryRun (α := α) (fun k => .err (g k)) retryable
        (N : Int) d).sleeps.length = N - 1 := by
  obtain ⟨m, rfl⟩ : ∃ m, N = m + 1 := ⟨N - 1, by omega⟩
  unfold retryRun
  rw [Int.toNat_natCast,
    retryGo_allFail (fun k => .err (g k)) retryable g (fun _ => rfl) hr m d 0 []]
  simp

theorem retry_backoff_witness :
    (1 : Nat) ≤ 3 ∧
      ((retryRun (α := Unit) (fun k => .err k) (fun _ : Nat => true)
          ((3 : Nat) : Int) 2).sleeps =
          (List.range (3 - 1)).map (fun k => 2 * 2 ^ k) ∧
        (retryRun (α := Unit) (fun k => .err k) (fun _ : Nat => true)
          ((3 : Nat) : Int) 2).sleeps.length = 3 - 1) :=
  ⟨by decide,
    retry_backoff_doubles_sleeps Unit (fun k => k) (fun _ => true) 3
      (by decide) 2 (fun _ => rfl)⟩

theorem retryGo_failsThenOk {f : Nat → Outcome α ε} {retryable : ε → Bool}
    {g : Nat → ε} {v : α} :
    ∀ (m r c : Nat) (d : Int) (s : List Int), m < r →
      (∀ k, k < m → f (c + k) = .err (g (c + k)) ∧
        retryable (g (c + k)) = true) →
      f (c + m) = .ok v →
      retryGo f retryable r d c s =
        ⟨.returned (some v), c + m + 1,
          s ++ (List.range m).map fun k => d * 2 ^ k⟩ := by
  intro m
  induction m with
  | zero =>
    intro r c d s hmr hfail hok
    obtain ⟨t, rfl⟩ : ∃ t, r = t + 1 := ⟨r - 1, by omega⟩
    simpa using retryGo_ok retryable (by simpa using hok) t d s
  | succ m ih =>
    intro r c d s hmr hfail hok
    obtain ⟨t, rfl⟩ : ∃ t, r = t + 1 := ⟨r - 1, by omega⟩
    have h0 := hfail 0 (Nat.succ_pos m)
    rw [retryGo_err_step (by simpa using h0.1) (by simpa using h0.2)
        (show t ≠ 0 from by omega) d s,
      ih t (c + 1) (d * 2) (s ++ [d]) (by omega)
        (fun k hk => by
          rw [show c + 1 + k = c + (k + 1) from by omega]
          exact hfail (k + 1) (by omega))
        (by rw [show c + 1 + m = c + (m + 1) from by omega]; exact hok),
      sleepsShift, show c + 1 + m = c + (m + 1) from by omega]

/-- C4: a callable that raises retryable errors on its first `N - 1`
invocations and returns `v` on its `N`-th invocation, with `1 ≤ N ≤
max_tries`, makes the retry wrapper return `v` after exactly `N`
invocations. -/
theorem retry_eventual_success_returns (α : Type) (f : Nat → Outcome α ε)
    (retryable : ε → Bool) (g : Nat → ε) (v : α) (N M : Nat) (hN : 1 ≤ N)
    (hNM : N ≤ M) (d : Int)
    (hfail : ∀ k, k < N - 1 → f k = .err (g k) ∧ retryable (g k) = true)
    (hok : f (N - 1) = .ok v) :
    (retryRun f retryable (M : Int) d).result = .returned (some v) ∧
      (retryRun f retryable (M : Int) d).calls = N := by
  unfold retryRun
  rw [Int.toNat_natCast,
    retryGo_failsThenOk (N - 1) M 0 d [] (by omega)
      (fun k hk => by simpa using hfail k hk) (by simpa using hok)]
  simp
  omega

theorem retry_eventual_success_witness :
    ((1 : Nat) ≤ 3 ∧ (3 : Nat) ≤ 3) ∧
      ((retryRun (fun k => if k < 2 then .err k else .ok (7 : Nat))
          (fun _ : Nat => true) ((3 : Nat) : Int) 2).result =
          .returned (some 7) ∧
        (retryRun (fun k => if k < 2 then .err k else .ok (7 : Nat))
          (fun _ : Nat => true) ((3 : Nat) : Int) 2).calls = 3) :=
  ⟨by decide,
    retry_eventual_success_returns Nat
      (fun k => if k < 2 then .err k else .ok 7) (fun _ => true)
      (fun k => k) 7 3 3 (by decide) (by decide) 2
      (fun k hk => by
        constructor
        · simp [show k < 2 from hk]
        · rfl)
      (by decide)⟩

/-- C5: a callable whose first invocation raises an error outside the
configured retryable exception classes makes the wrapper propagate that
error immediately: one invocation, no sleep. -/
theorem retry_nonretryable_propagates (α : Type) (f : Nat → Outcome α ε)
    (retryable : ε → Bool) (e : ε) (M : Int) (hM : 1 ≤ M) (d : Int)
    (h0 : f 0 = .err e) (hr : retryable e = false) :
    retryRun f retryable M d = ⟨.raised e, 1, []⟩ := by
  unfold retryRun
  obtain ⟨m, hm⟩ : ∃ m, M.toNat = m + 1 := ⟨M.toNat - 1, by omega⟩
  rw [hm, retryGo_err_noretry h0 hr m d []]

theorem retry_nonretryable_witness :
    (1 : Int) ≤ 3 ∧
      retryRun (α := Unit) (fun _ => .err (5 : Nat)) (fun _ => false) 3 2 =
        ⟨.raised 5, 1, []⟩ :=
  ⟨by decide,
    retry_nonretryable_propagates Unit (fun _ => .err 5) (fun _ => false) 5 3
      (by decide) 2 rfl rfl⟩

/-- C10: with `max_tries ≤ 0` the `while tries < max_tries` loop body never
runs, so the wrapper invokes the callable zero times, sleeps zero times,
raises nothing, and returns Python `None`. -/
theorem retry_nonpositive_max_tries (α : Type) (f : Nat → Outcome α ε)
    (retryable : ε → Bool) (M : Int) (hM : M ≤ 0) (d : Int) :
    retryRun f retryable M d = ⟨.returned none, 0, []⟩ := by
  unfold retryRun
  rw [show M.toNat = 0 from by omega]
  exact retryGo_zero f retryable d 0 []

theorem retry_nonpositive_witness :
    (-1 : Int) ≤ 0 ∧
      retryRun (α := Unit) (fun _ => .err (5 : Nat)) (fun _ => true) (-1) 2 =
        ⟨.returned none, 0, []⟩ :=
  ⟨by decide,
    retry_nonpositive_max_tries Unit (fun _ => .err 5) (fun _ => true) (-1)
      (by decide) 2⟩

/-- C2: an entry set at time `T` in a cache whose TTL is `S > 1` is still
returned by a `get` evaluated at time `T + S - 1` and is a miss (Python
`None`) for a `get` evaluated at time `T + S + 1`. -/
theorem cache_ttl_window (α : Type) (s : ExpiringCache α) (S T : ℚ)
    (k : String) (v : α) (hS : 1 < S) (hsec : s.expirySeconds = S) :
    (((s.set T k v).get (T + S - 1) k).map Prod.fst = .ok (some v)) ∧
      (((s.set T k v).get (T + S + 1) k).map Prod.fst = .ok none) := by
  have h1 : T + S - 1 < T + S := by linarith
  have h2 : ¬ T + S + 1 < T + S := by linarith
  constructor
  · simp [ExpiringCache.get, ExpiringCache.set, hsec, h1, Except.map]
  · simp [ExpiringCache.get, ExpiringCache.set, hsec, h2, Except.map]

theorem cache_ttl_window_witness :
    (1 : ℚ) < 10 ∧
      ((((ExpiringCache.init Nat 10).set 0 "k" 7).get (0 + 10 - 1)
          "k").map Prod.fst = .ok (some 7) ∧
        (((ExpiringCache.init Nat 10).set 0 "k" 7).get (0 + 10 + 1)
          "k").map Prod.fst = .ok none) :=
  ⟨by norm_num,
    cache_ttl_window Nat (ExpiringCache.init Nat 10) 10 0 "k" 7 (by norm_num)
      rfl⟩

/-- C7: a `get` on a key whose stored expiry time has been reached returns a
miss and evicts the key from both dictionaries, leaving every other key
untouched. -/
theorem cache_get_expired_evicts (α : Type) (s : ExpiringCache α) (now : ℚ)
    (k : String) (w : α) (ex : ℚ) (hc : s.cache k = some w)
    (he : s.expiry k = some ex) (hex : ex ≤ now) :
    ∃ t : ExpiringCache α, s.get now k = .ok (none, t) ∧
      t.cache k = none ∧ t.expiry k = none ∧
      ∀ q, q ≠ k → t.cache q = s.cache q ∧ t.expiry q = s.expiry q := by
  refine ⟨{ s with
    cache := fun q => if q = k then none else s.cache q,
    expiry := fun q => if q = k then none else s.expiry q }, ?_, ?_, ?_, ?_⟩
  · have hcond : ¬ ((s.cache k).isSome ∧ now < (s.expiry k).getD 0) := by
      rintro ⟨-, hlt⟩
      rw [he, Option.getD_some] at hlt
      exact absurd hlt (not_lt.mpr hex)
    unfold ExpiringCache.get
    rw [if_neg hcond, if_pos (by simp [hc]), he]
  · simp
  · simp
  · intro q hq
    simp [hq]

theorem cache_get_expired_witness :
    ∃ t : ExpiringCache Nat,
      ((ExpiringCache.init Nat 10).set 0 "k" 7).get 11 "k" = .ok (none, t) ∧
        t.cache "k" = none ∧ t.expiry "k" = none ∧
        ∀ q, q ≠ "k" →
          t.cache q = ((ExpiringCache.init Nat 10).set 0 "k" 7).cache q ∧
            t.expiry q = ((ExpiringCache.init Nat 10).set 0 "k" 7).expiry q :=
  cache_get_expired_evicts Nat ((ExpiringCache.init Nat 10).set 0 "k" 7) 11
    "k" 7 10 (by simp [ExpiringCache.init, ExpiringCache.set])
    (by norm_num [ExpiringCache.init, ExpiringCache.set]) (by norm_num)

/-- C8: setting the same key twice leaves the cache in exactly the state a
single `set` of the second value at the second time produces: the key maps
to the second value with expiry `T2 + expiry_seconds`, and the first value
and first expiry are gone. -/
theorem cache_set_overwrites (α : Type) (s : ExpiringCache α) (t1 t2 : ℚ)
    (k : String) (v1 v2 : α) (h12 : t1 ≤ t2) :
    (s.set t1 k v1).set t2 k v2 = s.set t2 k v2 ∧
      ((s.set t1 k v1).set t2 k v2).cache k = some v2 ∧
      ((s.set t1 k v1).set t2 k v2).expiry k =
        some (t2 + s.expirySeconds) := by
  refine ⟨?_, by simp [ExpiringCache.set], by simp [ExpiringCache.set]⟩
  obtain ⟨c, e, es⟩ := s
  simp only [ExpiringCache.set, ExpiringCache.mk.injEq]
  refine ⟨funext fun q => ?_, funext fun q => ?_, trivial⟩ <;> by_cases hq : q = k <;>
    simp [hq]

theorem cache_set_overwrites_witness :
    (0 : ℚ) ≤ 5 ∧
      ((((ExpiringCache.init Nat 10).set 0 "k" 7).set 5 "k" 8 =
          (ExpiringCache.init Nat 10).set 5 "k" 8) ∧
        (((ExpiringCache.init Nat 10).set 0 "k" 7).set 5 "k" 8).cache "k" =
          some 8 ∧
        (((ExpiringCache.init Nat 10).set 0 "k" 7).set 5 "k" 8).expiry "k" =
          some (5 + 10)) :=
  ⟨by norm_num,
    cache_set_overwrites Nat (ExpiringCache.init Nat 10) 0 5 "k" 7 8
      (by norm_num)⟩

/-- C9: the two dictionaries of `ExpiringCache` always hold the same key
set: the invariant holds after `__init__` and is preserved by `set`,
`clear`, and `get`; moreover `get` on an invariant-respecting state never
raises the `KeyError` that `del self.expiry[key]` would produce on an
absent key. -/
theorem cache_invariant_preserved (α : Type) (S : ℚ) (s : ExpiringCache α)
    (now : ℚ) (k : String) (v : α) (hs : s.invariant) :
    (ExpiringCache.init α S).invariant ∧
      (s.set now k v).invariant ∧
      s.clear.invariant ∧
      ∃ r t, s.get now k = .ok (r, t) ∧ t.invariant := by
  refine ⟨fun q => rfl, ?_, fun q => rfl, ?_⟩
  · intro q
    by_cases hq : q = k <;> simp [ExpiringCache.set, hq, hs q]
  · unfold ExpiringCache.get
    by_cases h1 : (s.cache k).isSome ∧ now < (s.expiry k).getD 0
    · exact ⟨s.cache k, s, by rw [if_pos h1], hs⟩
    · rw [if_neg h1]
      by_cases h2 : (s.cache k).isSome
      · have h3 : (s.expiry k).isSome := (hs k) ▸ h2
        obtain ⟨ex, hex⟩ := Option.isSome_iff_exists.mp h3
        rw [if_pos h2, hex]
        refine ⟨none, _, rfl, fun q => ?_⟩
        by_cases hq : q = k <;> simp [hq, hs q]
      · exact ⟨none, s, by rw [if_neg h2], hs⟩

theorem cache_invariant_witness :
    (ExpiringCache.init Nat 5).invariant ∧
      (((ExpiringCache.init Nat 5).set 0 "k" 1).invariant ∧
        (ExpiringCache.init Nat 5).clear.invariant ∧
        ∃ r t, (ExpiringCache.init Nat 5).get 0 "k" = .ok (r, t) ∧
          t.invariant) :=
  ⟨fun _ => rfl,
    ⟨(cache_invariant_preserved Nat 5 (ExpiringCache.init Nat 5) 0 "k" 1
        (fun _ => rfl)).2.1,
      (cache_invariant_preserved Nat 5 (ExpiringCache.init Nat 5) 0 "k" 1
        (fun _ => rfl)).2.2.1,
      (cache_invariant_preserved Nat 5 (ExpiringCache.init Nat 5) 0 "k" 1
        (fun _ => rfl)).2.2.2⟩⟩

/-- C1: the `@retry`-decorated `FlightSearchTool.execute`, called with valid
parameters while `_generate_mock_flights` raises `ServiceUnavailableError`
on every attempt, surfaces the generic error payload after exactly ONE
invocation of the wrapped callable (and hence one generator call) and zero
sleeps: the outer `except Exception` handler inside `execute` converts the
re-raised `ServiceUnavailableError` into a normal return, so the retry
wrapper never observes a retryable failure and no retry occurs —
contradicting the retry contract the claim (and the comment in the source)
asserts. -/
theorem flight_service_unavailable_not_retried (ρ : Type)
    (dateOk : String → Bool) (p : FlightParams) (ho : p.origin ≠ "")
    (hd : p.destination ≠ "") (hdt : p.date ≠ "")
    (hfmt : dateOk p.date = true)
    (hret : p.returnDate = "" ∨ dateOk p.returnDate = true) :
    flightExecuteRun (ρ := ρ) dateOk p (fun _ => .err .serviceUnavailable) =
      ⟨.returned (some (.errorPayload "ServiceUnavailableError"
        "Failed to search flights", 1)), 1, []⟩ := by
  have hbody : flightExecuteBody (ρ := ρ) dateOk p
      (.err .serviceUnavailable) =
      (.errorPayload "ServiceUnavailableError" "Failed to search flights",
        1) := by
    unfold flightExecuteBody validate_required_fields flightInnerTry
    rcases hret with h | h <;>
      simp [List.lookup, ho, hd, hdt, hfmt, h, pyExcName]
  unfold flightExecuteRun retryRun
  rw [show ((3 : Int)).toNat = 2 + 1 from rfl,
    retryGo_ok flightRetryable
      (show flightExecuteCall dateOk p (fun _ => .err .serviceUnavailable) 0 =
          .ok (.errorPayload "ServiceUnavailableError"
            "Failed to search flights", 1) from by
        unfold flightExecuteCall
        rw [hbody]) 2 2 []]

theorem flight_service_unavailable_witness :
    flightExecuteRun (ρ := Nat) (fun _ => true)
      ⟨"JFK", "LAX", "2025-05-15", ""⟩ (fun _ => .err .serviceUnavailable) =
      ⟨.returned (some (.errorPayload "ServiceUnavailableError"
        "Failed to search flights", 1)), 1, []⟩ :=
  flight_service_unavailable_not_retried Nat (fun _ => true)
    ⟨"JFK", "LAX", "2025-05-15", ""⟩ (by decide) (by decide) (by decide) rfl
    (Or.inl rfl)
